import Mathlib

/-
Verification development for the rapid-response-ai MapView components.

The repository contains three near-duplicate MapView implementations:
a Leaflet variant, a Mapbox variant with a client-entered token, and a
Mapbox variant with a server-fetched token. This file gives a shallow
embedding of the Alert data model, the icon and color mapping functions,
the Leaflet marker rendering and FitBounds routine, and the Mapbox
component state machine (map initialization, load callback, marker sync,
unmount cleanup, and token acquisition), and proves the testable
properties of the specification against these definitions.

Coordinates are modelled as rational numbers: the component performs no
arithmetic on them other than min and max when building bounding boxes,
so rationals are a faithful model of the numeric values involved.
-/

namespace RapidResponse

/-- Alert record, as declared identically in all three MapView variants:
an identifier, an SOS identifier, a type tag, geographic coordinates and
a status tag. The type and status fields are strings in the model since
the icon and color functions are declared over arbitrary strings. -/
structure Alert where
  id : String
  sosId : String
  type : String
  latitude : ℚ
  longitude : ℚ
  status : String
deriving DecidableEq

/-- Embedding of getTypeIcon, defined textually identically in all three
variants: a switch on the type tag with a generic-siren default. -/
def getTypeIcon (type : String) : String :=
  if type = "MEDICAL" then "🚑"
  else if type = "POLICE" then "🚔"
  else if type = "FIRE" then "🚒"
  else "🚨"

/-- Membership of one string inside another, as substring occurrence:
some prefix and suffix surround the needle. Used to state that popup
markup contains an alert field. -/
def strIn (needle hay : String) : Prop :=
  ∃ p s, p ++ needle ++ s = hay

/-- Bounding boxes are quadruples (minX, minY, maxX, maxY); extending an
optional box by a point either starts a degenerate box at the point or
takes componentwise min and max. This models both mapboxgl.LngLatBounds
extended point by point and the bounds of a Leaflet FeatureGroup. -/
def extendBounds (acc : Option (ℚ × ℚ × ℚ × ℚ)) (p : ℚ × ℚ) :
    Option (ℚ × ℚ × ℚ × ℚ) :=
  match acc with
  | none => some (p.1, p.2, p.1, p.2)
  | some (x1, y1, x2, y2) =>
      some (min x1 p.1, min y1 p.2, max x2 p.1, max y2 p.2)

/-- Bounding box of a list of points, folded from the empty box. -/
def boundsOf (pts : List (ℚ × ℚ)) : Option (ℚ × ℚ × ℚ × ℚ) :=
  pts.foldl extendBounds none

/-- Expansion of a bounding box by a ratio of its own size on every
side; this is the semantics of the pad method of Leaflet bounds. -/
def padBounds (b : ℚ × ℚ × ℚ × ℚ) (r : ℚ) : ℚ × ℚ × ℚ × ℚ :=
  match b with
  | (x1, y1, x2, y2) =>
      ((x1 - (x2 - x1) * r), (y1 - (y2 - y1) * r),
       (x2 + (x2 - x1) * r), (y2 + (y2 - y1) * r))

namespace Leaflet

/-- Embedding of getStatusColor of the Leaflet variant: hex colors red,
orange, green with a gray default. -/
def getStatusColor (status : String) : String :=
  if status = "PENDING" then "#ef4444"
  else if status = "ASSIGNED" then "#f59e0b"
  else if status = "RESOLVED" then "#10b981"
  else "#6b7280"

/-- Leaflet div icon as produced by createCustomIcon: an html string, a
class name, an icon size and an anchor. -/
structure LIcon where
  html : String
  className : String
  iconSize : ℚ × ℚ
  iconAnchor : ℚ × ℚ
deriving DecidableEq

/-- Embedding of createCustomIcon: a colored circular div holding the
type emoji, written here with the same CSS declarations as the source
template (whitespace condensed). -/
def createCustomIcon (type status : String) : LIcon :=
  { html := "<div style=\"background-color: " ++ getStatusColor status ++
      "; width: 32px; height: 32px; border-radius: 50%; display: flex; " ++
      "align-items: center; justify-content: center; border: 2px solid white; " ++
      "box-shadow: 0 2px 4px rgba(0,0,0,0.2); font-size: 16px;\">" ++
      getTypeIcon type ++ "</div>"
    className := "custom-marker"
    iconSize := (32, 32)
    iconAnchor := (16, 16) }

/-- Rendered Leaflet marker: a (latitude, longitude) position, the
custom icon, and the popup markup. -/
structure LMarker where
  position : ℚ × ℚ
  icon : LIcon
  popup : String
deriving DecidableEq

/-- Popup markup of a Leaflet marker, concatenated from the JSX children
of the Popup element. -/
def leafletPopup (a : Alert) : String :=
  "<div class=\"p-2\"><h3 class=\"font-semibold\">" ++ a.type ++
  " Alert</h3><p class=\"text-sm text-gray-600\">SOS ID: " ++ a.sosId ++
  "</p><p class=\"text-sm\">Status: " ++ a.status ++ "</p></div>"

/-- Marker produced for one alert inside the alerts.map rendering. -/
def renderMarker (a : Alert) : LMarker :=
  { position := (a.latitude, a.longitude)
    icon := createCustomIcon a.type a.status
    popup := leafletPopup a }

/-- Embedding of the alerts.map JSX loop of the Leaflet variant: one
marker per alert, in order. -/
def renderMarkers (alerts : List Alert) : List LMarker :=
  alerts.map renderMarker

/-- Leaflet map view: either an explicit center and zoom from setView,
or a fitted bounding box from fitBounds. -/
inductive LView where
  | setView (lat lng zoom : ℚ)
  | fitBoundsView (b : ℚ × ℚ × ℚ × ℚ)
deriving DecidableEq

/-- Bounding box of the latitude-longitude points of the alerts, as
computed by the bounds of the FeatureGroup built in FitBounds. -/
def alertLatLngBounds (alerts : List Alert) : Option (ℚ × ℚ × ℚ × ℚ) :=
  boundsOf (alerts.map fun a => (a.latitude, a.longitude))

/-- Embedding of the FitBounds effect body: for a non-empty alert list
the map fits the padded bounds of the alert group, otherwise it resets
to the default view centered on Delhi at zoom 10. -/
def fitBoundsEffect (alerts : List Alert) (cur : LView) : LView :=
  if 0 < alerts.length then
    match alertLatLngBounds alerts with
    | some b => LView.fitBoundsView (padBounds b 0.1)
    | none => cur
  else
    LView.setView 28.6139 77.2090 10

end Leaflet

namespace Mapbox

/-- Embedding of getStatusColor of both Mapbox variants: Tailwind class
pairs keyed by status with a muted default. -/
def getStatusColor (status : String) : String :=
  if status = "PENDING" then "border-pending bg-pending/20"
  else if status = "ASSIGNED" then "border-assigned bg-assigned/20"
  else if status = "RESOLVED" then "border-resolved bg-resolved/20"
  else "border-muted bg-muted/20"

/-- Mapbox marker as built in the marker-sync effect: element class,
inner markup and title of the custom div, the longitude-latitude
position, and the attached popup with its offset. -/
structure Marker where
  lng : ℚ
  lat : ℚ
  className : String
  innerHTML : String
  title : String
  popupHtml : String
  popupOffset : ℚ
deriving DecidableEq

/-- Popup markup for one alert, concatenated as in the setHTML template
(whitespace condensed). -/
def popupHtmlFor (a : Alert) : String :=
  "<div class=\"p-2\"><h3 class=\"font-semibold\">" ++ a.type ++
  " Alert</h3><p class=\"text-sm text-gray-600\">SOS ID: " ++ a.sosId ++
  "</p><p class=\"text-sm\">Status: " ++ a.status ++ "</p></div>"

/-- Marker built for one alert inside the alerts.forEach loop of the
marker-sync effect. -/
def makeMarker (a : Alert) : Marker :=
  { lng := a.longitude
    lat := a.latitude
    className := "w-10 h-10 flex items-center justify-center rounded-full " ++
      "border-2 shadow-lg cursor-pointer hover:scale-110 transition-transform " ++
      getStatusColor a.status
    innerHTML := "<span class=\"text-lg\">" ++ getTypeIcon a.type ++ "</span>"
    title := a.type ++ " - SOS #" ++ a.sosId
    popupHtml := popupHtmlFor a
    popupOffset := 25 }

/-- Mapbox map viewport: the explicit center and zoom given at
construction, or a fitted bounding box with a padding from fitBounds. -/
inductive Viewport where
  | centerZoom (lng lat zoom : ℚ)
  | fitted (x1 y1 x2 y2 padding : ℚ)
deriving DecidableEq

/-- Mapbox map instance: style, current viewport, whether the
navigation control was attached, and whether the load handler was
registered. -/
structure Map where
  style : String
  viewport : Viewport
  navControl : Bool
  loadHandlerSet : Bool
deriving DecidableEq

/-- Map instance as constructed by the map-init effect: light style,
Delhi center, zoom 10, navigation control attached, load handler
registered. -/
def initialMap : Map :=
  { style := "mapbox://styles/mapbox/light-v11"
    viewport := Viewport.centerZoom 77.2090 28.6139 10
    navControl := true
    loadHandlerSet := true }

/-- Component state of the Mapbox MapView variants: whether the
container ref is attached, the token state, the map ref, the markers
ref, the isMapLoaded flag, and the markers currently attached to the
map display (the effect of marker.addTo and marker.remove). -/
structure MapState where
  hasContainer : Bool
  mapboxToken : String
  map : Option Map
  markers : List Marker
  isMapLoaded : Bool
  attached : List Marker
deriving DecidableEq

/-- Effect of calling remove on each marker of a list: each call
detaches that marker from the map display. -/
def removeMarkers (attached : List Marker) (ms : List Marker) : List Marker :=
  ms.foldl (fun w m => w.erase m) attached

/-- First half of the marker-sync effect: every marker of the markers
ref is removed from the display and the ref is emptied. -/
def clearMarkers (st : MapState) : MapState :=
  { st with attached := removeMarkers st.attached st.markers, markers := [] }

/-- Second half of the marker-sync effect: one marker per alert is
built, added to the display and pushed onto the markers ref, in alert
order. -/
def addMarkers (alerts : List Alert) (st : MapState) : MapState :=
  alerts.foldl
    (fun s a =>
      { s with attached := s.attached ++ [makeMarker a],
               markers := s.markers ++ [makeMarker a] })
    st

/-- Bounding box of the longitude-latitude points of the alerts, as the
fold of bounds.extend over the alerts. -/
def alertBounds (alerts : List Alert) : Option (ℚ × ℚ × ℚ × ℚ) :=
  boundsOf (alerts.map fun a => (a.longitude, a.latitude))

/-- Final step of the marker-sync effect: when the alert list is
non-empty the map fits the bounding box of all alerts with padding 50;
otherwise the viewport is left untouched. -/
def fitToAlerts (alerts : List Alert) (st : MapState) : MapState :=
  if 0 < alerts.length then
    match st.map, alertBounds alerts with
    | some m, some (x1, y1, x2, y2) =>
        { st with map := some { m with viewport := Viewport.fitted x1 y1 x2 y2 50 } }
    | _, _ => st
  else st

/-- Embedding of the marker-sync effect of both Mapbox variants: it
returns early unless the map exists and is loaded; otherwise it clears
the previous markers, adds one marker per alert, and fits the bounds
when the list is non-empty. -/
def markerSync (alerts : List Alert) (st : MapState) : MapState :=
  if st.map.isNone || !st.isMapLoaded then st
  else fitToAlerts alerts (addMarkers alerts (clearMarkers st))

/-- Embedding of the map-init effect of both Mapbox variants: it returns
early unless the container ref is attached and the token is non-empty
(string truthiness); otherwise it constructs the map with the default
center and zoom, attaches the navigation control and registers the load
handler. The isMapLoaded flag is not touched here. -/
def mapInitEffect (st : MapState) : MapState :=
  if st.hasContainer = false ∨ st.mapboxToken = "" then st
  else { st with map := some initialMap }

/-- Firing of the load callback registered by the map-init effect: the
isMapLoaded flag becomes true, and only when a map with a registered
load handler exists. -/
def loadEvent (st : MapState) : MapState :=
  match st.map with
  | some m => if m.loadHandlerSet then { st with isMapLoaded := true } else st
  | none => st

/-- Embedding of the cleanup function returned by the map-init effect:
each marker of the ref is removed from the display, the ref is emptied,
the map instance is removed and the isMapLoaded flag is reset. -/
def cleanupEffect (st : MapState) : MapState :=
  { st with attached := removeMarkers st.attached st.markers,
            markers := [],
            map := none,
            isMapLoaded := false }

/-- Events that drive the Mapbox component state: the map-init effect,
the load callback, a run of the marker-sync effect, and the unmount
cleanup. -/
inductive Event where
  | init
  | load
  | sync (alerts : List Alert)
  | cleanup

/-- One step of the component state machine. -/
def step (st : MapState) : Event → MapState
  | Event.init => mapInitEffect st
  | Event.load => loadEvent st
  | Event.sync alerts => markerSync alerts st
  | Event.cleanup => cleanupEffect st

end Mapbox

namespace MapboxServer

/-- Token-related state of the server-fetched-token variant: the token
string and the error flag, both initialised by useState. -/
structure TokenState where
  mapboxToken : String
  tokenError : Bool
deriving DecidableEq

/-- Initial token state: empty token, no error. -/
def initialTokenState : TokenState :=
  { mapboxToken := "", tokenError := false }

/-- Embedding of fetchMapboxToken: the remote invocation either throws
or returns an error (the Except.error case, covering both the explicit
throw and the catch), or succeeds with a payload whose token field may
be absent. On success the token is stored only when the token field is
truthy, that is a non-empty string; otherwise the error flag is set. -/
def fetchMapboxToken (res : Except Unit (Option String)) (st : TokenState) :
    TokenState :=
  match res with
  | Except.error _ => { st with tokenError := true }
  | Except.ok data =>
      match data with
      | some t =>
          if t ≠ "" then { st with mapboxToken := t }
          else { st with tokenError := true }
      | none => { st with tokenError := true }

/-- Mount effect of the server-fetched-token variant: the fetch runs
exactly once (empty dependency array) against the initial state. -/
def mountTokenEffect (res : Except Unit (Option String)) : TokenState :=
  fetchMapboxToken res initialTokenState

/-- Content rendered inside the card of the server-fetched-token
variant. -/
inductive Content where
  | errorPanel
  | loadingPanel
  | mapContainer
deriving DecidableEq

/-- Embedding of the render branch of the server-fetched-token variant:
the static error message when the error flag is set, the loading panel
while the token is empty, and the map container otherwise. -/
def renderContent (st : TokenState) : Content :=
  if st.tokenError then Content.errorPanel
  else if st.mapboxToken = "" then Content.loadingPanel
  else Content.mapContainer

end MapboxServer

namespace MapboxClient

/-- Component state of the client-entered-token variant that the token
gate and submit handler touch: the token string and the isMapLoaded
flag. -/
structure ClientState where
  mapboxToken : String
  isMapLoaded : Bool
deriving DecidableEq

/-- Embedding of handleTokenSubmit: the body only tests the trimmed
token and contains no state update at all, so the state is returned
unchanged on both branches. -/
def handleTokenSubmit (st : ClientState) : ClientState :=
  if st.mapboxToken.trim ≠ "" then st else st

/-- Embedding of the onChange handler of the token input: the token
state is set to the input value directly. -/
def setTokenFromInput (v : String) (st : ClientState) : ClientState :=
  { st with mapboxToken := v }

/-- Content rendered inside the card of the client-entered-token
variant. -/
inductive ClientContent where
  | tokenInputPanel
  | mapContainer
deriving DecidableEq

/-- Embedding of the render branch of the client-entered-token variant:
the token input panel while the token is falsy (empty), the map
container otherwise. -/
def renderContent (st : ClientState) : ClientContent :=
  if st.mapboxToken = "" then ClientContent.tokenInputPanel
  else ClientContent.mapContainer

end MapboxClient

/-- Sample alert used to instantiate theorems with hypotheses on
concrete inputs. -/
def sampleAlert : Alert :=
  { id := "a1", sosId := "42", type := "MEDICAL",
    latitude := 1, longitude := 2, status := "PENDING" }

/-- Second sample alert with distinct coordinates. -/
def sampleAlert2 : Alert :=
  { id := "a2", sosId := "43", type := "FIRE",
    latitude := 3, longitude := 5, status := "RESOLVED" }

namespace Mapbox

/-- Sample state directly after initialization and the load callback:
map constructed, loaded, no markers yet. -/
def sampleLoadedState : MapState :=
  { hasContainer := true, mapboxToken := "pk-test", map := some initialMap,
    markers := [], isMapLoaded := true, attached := [] }

/-- Sample loaded state carrying one previously rendered marker. -/
def sampleMarkerState : MapState :=
  { hasContainer := true, mapboxToken := "pk-test", map := some initialMap,
    markers := [makeMarker sampleAlert], isMapLoaded := true,
    attached := [makeMarker sampleAlert] }

/-- Sample state before the map-init effect: container attached, token
present, no map yet. -/
def sampleInitState : MapState :=
  { hasContainer := true, mapboxToken := "pk-test", map := none,
    markers := [], isMapLoaded := false, attached := [] }

/-- Sample state after initialization but before the load callback:
map constructed, not yet loaded. -/
def sampleReadyState : MapState :=
  { hasContainer := true, mapboxToken := "pk-test", map := some initialMap,
    markers := [], isMapLoaded := false, attached := [] }

/-- Map instance whose viewport was moved away from the default view. -/
def movedMap : Map :=
  { style := "mapbox://styles/mapbox/light-v11",
    viewport := Viewport.centerZoom 1 2 5,
    navControl := true, loadHandlerSet := true }

/-- Loaded state whose map sits at a non-default viewport. -/
def movedState : MapState :=
  { hasContainer := true, mapboxToken := "pk-test", map := some movedMap,
    markers := [], isMapLoaded := true, attached := [] }

end Mapbox

theorem foldl_erase_self {α : Type} [DecidableEq α] (l : List α) :
    l.foldl (fun w m => w.erase m) l = [] := by
  induction l with
  | nil => rfl
  | cons a t ih => simpa [List.foldl_cons] using ih

namespace Mapbox

theorem removeMarkers_self (ms : List Marker) : removeMarkers ms ms = [] :=
  foldl_erase_self ms

theorem addMarkers_eq (alerts : List Alert) (st : MapState) :
    addMarkers alerts st =
      { st with markers := st.markers ++ alerts.map makeMarker,
                attached := st.attached ++ alerts.map makeMarker } := by
  induction alerts generalizing st with
  | nil => simp [addMarkers]
  | cons a t ih =>
      show addMarkers t _ = _
      rw [ih]
      simp

theorem fitToAlerts_frame (alerts : List Alert) (st : MapState) :
    (fitToAlerts alerts st).markers = st.markers ∧
    (fitToAlerts alerts st).attached = st.attached ∧
    (fitToAlerts alerts st).isMapLoaded = st.isMapLoaded := by
  unfold fitToAlerts
  split
  · split <;> exact ⟨rfl, rfl, rfl⟩
  · exact ⟨rfl, rfl, rfl⟩

theorem markerSync_of_loaded (alerts : List Alert) (st : MapState) (m : Map)
    (hm : st.map = some m) (hl : st.isMapLoaded = true) :
    markerSync alerts st = fitToAlerts alerts (addMarkers alerts (clearMarkers st)) := by
  simp [markerSync, hm, hl]

theorem markerSync_lists (alerts : List Alert) (st : MapState) (m : Map)
    (hm : st.map = some m) (hl : st.isMapLoaded = true) :
    (markerSync alerts st).markers = alerts.map makeMarker ∧
    (markerSync alerts st).attached =
      removeMarkers st.attached st.markers ++ alerts.map makeMarker := by
  rw [markerSync_of_loaded alerts st m hm hl]
  obtain ⟨h1, h2, _⟩ := fitToAlerts_frame alerts (addMarkers alerts (clearMarkers st))
  rw [h1, h2, addMarkers_eq]
  exact ⟨rfl, rfl⟩

theorem markerSync_isMapLoaded (alerts : List Alert) (st : MapState) :
    (markerSync alerts st).isMapLoaded = st.isMapLoaded := by
  unfold markerSync
  split
  · rfl
  · obtain ⟨_, _, h⟩ := fitToAlerts_frame alerts (addMarkers alerts (clearMarkers st))
    rw [h, addMarkers_eq]
    rfl

end Mapbox

theorem extendBounds_spec (acc : Option (ℚ × ℚ × ℚ × ℚ)) (p : ℚ × ℚ) :
    ∃ c1 d1 c2 d2, extendBounds acc p = some (c1, d1, c2, d2) ∧
      c1 ≤ p.1 ∧ p.1 ≤ c2 ∧ d1 ≤ p.2 ∧ p.2 ≤ d2 ∧
      (∀ a1 b1 a2 b2, acc = some (a1, b1, a2, b2) →
        c1 ≤ a1 ∧ a2 ≤ c2 ∧ d1 ≤ b1 ∧ b2 ≤ d2) := by
  cases acc with
  | none =>
      refine ⟨p.1, p.2, p.1, p.2, rfl, le_refl _, le_refl _, le_refl _, le_refl _, ?_⟩
      intro a1 b1 a2 b2 h
      cases h
  | some b =>
      obtain ⟨a1, b1, a2, b2⟩ := b
      refine ⟨min a1 p.1, min b1 p.2, max a2 p.1, max b2 p.2, rfl,
        min_le_right _ _, le_max_right _ _, min_le_right _ _, le_max_right _ _, ?_⟩
      intro a1' b1' a2' b2' h
      simp only [Option.some.injEq, Prod.mk.injEq] at h
      obtain ⟨h1, h2, h3, h4⟩ := h
      subst h1; subst h2; subst h3; subst h4
      exact ⟨min_le_left _ _, le_max_left _ _, min_le_left _ _, le_max_left _ _⟩

theorem foldl_extendBounds_bounds (pts : List (ℚ × ℚ)) :
    ∀ (acc : Option (ℚ × ℚ × ℚ × ℚ)) (x1 y1 x2 y2 : ℚ),
      pts.foldl extendBounds acc = some (x1, y1, x2, y2) →
      (∀ p ∈ pts, x1 ≤ p.1 ∧ p.1 ≤ x2 ∧ y1 ≤ p.2 ∧ p.2 ≤ y2) ∧
      (∀ a1 b1 a2 b2, acc = some (a1, b1, a2, b2) →
        x1 ≤ a1 ∧ a2 ≤ x2 ∧ y1 ≤ b1 ∧ b2 ≤ y2) := by
  induction pts with
  | nil =>
      intro acc x1 y1 x2 y2 h
      simp only [List.foldl_nil] at h
      constructor
      · intro p hp
        cases hp
      intro a1 b1 a2 b2 ha
      rw [ha] at h
      simp only [Option.some.injEq, Prod.mk.injEq] at h
      obtain ⟨h1, h2, h3, h4⟩ := h
      subst h1; subst h2; subst h3; subst h4
      exact ⟨le_refl _, le_refl _, le_refl _, le_refl _⟩
  | cons p t ih =>
      intro acc x1 y1 x2 y2 h
      rw [List.foldl_cons] at h
      obtain ⟨c1, d1, c2, d2, he, hp1, hp2, hp3, hp4, hacc⟩ := extendBounds_spec acc p
      rw [he] at h
      obtain ⟨hmem, hcont⟩ := ih (some (c1, d1, c2, d2)) x1 y1 x2 y2 h
      obtain ⟨hx1, hx2, hy1, hy2⟩ := hcont c1 d1 c2 d2 rfl
      constructor
      · intro q hq
        rcases List.mem_cons.mp hq with hq | hq
        · subst hq
          exact ⟨le_trans hx1 hp1, le_trans hp2 hx2, le_trans hy1 hp3, le_trans hp4 hy2⟩
        · exact hmem q hq
      · intro a1 b1 a2 b2 ha
        obtain ⟨g1, g2, g3, g4⟩ := hacc a1 b1 a2 b2 ha
        exact ⟨le_trans hx1 g1, le_trans g2 hx2, le_trans hy1 g3, le_trans g4 hy2⟩

theorem boundsOf_bounds (pts : List (ℚ × ℚ)) (x1 y1 x2 y2 : ℚ)
    (h : boundsOf pts = some (x1, y1, x2, y2)) :
    ∀ p ∈ pts, x1 ≤ p.1 ∧ p.1 ≤ x2 ∧ y1 ≤ p.2 ∧ p.2 ≤ y2 :=
  (foldl_extendBounds_bounds pts none x1 y1 x2 y2 h).1

theorem foldl_extendBounds_isSome (pts : List (ℚ × ℚ)) :
    ∀ acc : Option (ℚ × ℚ × ℚ × ℚ), acc.isSome = true →
      (pts.foldl extendBounds acc).isSome = true := by
  induction pts with
  | nil => intro acc h; simpa using h
  | cons p t ih =>
      intro acc _
      rw [List.foldl_cons]
      apply ih
      obtain ⟨c1, d1, c2, d2, he, _⟩ := extendBounds_spec acc p
      rw [he]
      rfl

theorem boundsOf_isSome (pts : List (ℚ × ℚ)) (h : pts ≠ []) :
    (boundsOf pts).isSome = true := by
  cases pts with
  | nil => exact absurd rfl h
  | cons p t =>
      unfold boundsOf
      rw [List.foldl_cons]
      apply foldl_extendBounds_isSome
      obtain ⟨c1, d1, c2, d2, he, _⟩ := extendBounds_spec none p
      rw [he]
      rfl

namespace Mapbox

theorem strIn_type_popup (a : Alert) : strIn a.type (popupHtmlFor a) := by
  refine ⟨"<div class=\"p-2\"><h3 class=\"font-semibold\">",
    " Alert</h3><p class=\"text-sm text-gray-600\">SOS ID: " ++ (a.sosId ++
      ("</p><p class=\"text-sm\">Status: " ++ (a.status ++ "</p></div>"))), ?_⟩
  simp [popupHtmlFor, String.append_assoc]

theorem strIn_sosId_popup (a : Alert) : strIn a.sosId (popupHtmlFor a) := by
  refine ⟨"<div class=\"p-2\"><h3 class=\"font-semibold\">" ++ (a.type ++
      " Alert</h3><p class=\"text-sm text-gray-600\">SOS ID: "),
    "</p><p class=\"text-sm\">Status: " ++ (a.status ++ "</p></div>"), ?_⟩
  simp [popupHtmlFor, String.append_assoc]

end Mapbox

namespace Leaflet

theorem strIn_type_leafletPopup (a : Alert) : strIn a.type (leafletPopup a) := by
  refine ⟨"<div class=\"p-2\"><h3 class=\"font-semibold\">",
    " Alert</h3><p class=\"text-sm text-gray-600\">SOS ID: " ++ (a.sosId ++
      ("</p><p class=\"text-sm\">Status: " ++ (a.status ++ "</p></div>"))), ?_⟩
  simp [leafletPopup, String.append_assoc]

theorem strIn_sosId_leafletPopup (a : Alert) : strIn a.sosId (leafletPopup a) := by
  refine ⟨"<div class=\"p-2\"><h3 class=\"font-semibold\">" ++ (a.type ++
      " Alert</h3><p class=\"text-sm text-gray-600\">SOS ID: "),
    "</p><p class=\"text-sm\">Status: " ++ (a.status ++ "</p></div>"), ?_⟩
  simp [leafletPopup, String.append_assoc]

end Leaflet

/-- C4: in the server-fetched-token variant, a failed token fetch (the
remote call throws or returns an error) sets the boolean error flag,
leaves the token empty, and the component renders the static error
message instead of the map container; the mount effect applies the
fetch handler exactly once, with no retry. -/
theorem token_fetch_failure_shows_error :
    (MapboxServer.mountTokenEffect (Except.error ())).tokenError = true ∧
    (MapboxServer.mountTokenEffect (Except.error ())).mapboxToken = "" ∧
    MapboxServer.renderContent (MapboxServer.mountTokenEffect (Except.error ())) =
      MapboxServer.Content.errorPanel ∧
    MapboxServer.Content.errorPanel ≠ MapboxServer.Content.mapContainer ∧
    (∀ st, (MapboxServer.fetchMapboxToken (Except.error ()) st).tokenError = true) := by
  refine ⟨rfl, rfl, rfl, by decide, ?_⟩
  intro st
  rfl

/-- C5: the icon and color mappings are pure functions of the type and
status tags, and on the documented enumerations they return exactly the
documented emoji, the documented hex colors in the Leaflet variant, and
the documented status classes in the Mapbox variants. -/
theorem icon_color_enumeration_pure (t1 t2 s1 s2 : String)
    (ht : t1 = t2) (hs : s1 = s2) :
    getTypeIcon "MEDICAL" = "🚑" ∧ getTypeIcon "POLICE" = "🚔" ∧
    getTypeIcon "FIRE" = "🚒" ∧
    Leaflet.getStatusColor "PENDING" = "#ef4444" ∧
    Leaflet.getStatusColor "ASSIGNED" = "#f59e0b" ∧
    Leaflet.getStatusColor "RESOLVED" = "#10b981" ∧
    Mapbox.getStatusColor "PENDING" = "border-pending bg-pending/20" ∧
    Mapbox.getStatusColor "ASSIGNED" = "border-assigned bg-assigned/20" ∧
    Mapbox.getStatusColor "RESOLVED" = "border-resolved bg-resolved/20" ∧
    getTypeIcon t1 = getTypeIcon t2 ∧
    Leaflet.getStatusColor s1 = Leaflet.getStatusColor s2 ∧
    Mapbox.getStatusColor s1 = Mapbox.getStatusColor s2 := by
  subst ht
  subst hs
  exact ⟨by decide, by decide, by decide, by decide, by decide, by decide,
    by decide, by decide, by decide, rfl, rfl, rfl⟩

/-- Witness for C5 at concrete enumeration values. -/
theorem icon_color_enumeration_pure_witness :
    getTypeIcon "MEDICAL" = "🚑" :=
  (icon_color_enumeration_pure "MEDICAL" "MEDICAL" "PENDING" "PENDING" rfl rfl).1

/-- C6 counterexample: a successful remote call whose payload carries
the token field with the empty string is a response of shape
token-as-string, yet the code does not store it: string truthiness
sends it to the error branch, so the token state stays empty and the
error flag is set, refuting the claimed if-and-only-if. -/
theorem token_empty_string_counterexample :
    (MapboxServer.mountTokenEffect (Except.ok (some ""))).mapboxToken = "" ∧
    (MapboxServer.mountTokenEffect (Except.ok (some ""))).tokenError = true := by
  exact ⟨by decide, by decide⟩

/-- C6 (amended): a successful call stores the token exactly when the
payload carries a non-empty token string; when the token field is
absent or the empty string, the error flag is set and the token state
stays empty. -/
theorem token_success_sets_token_iff_truthy (t : String) (ht : t ≠ "") :
    (MapboxServer.mountTokenEffect (Except.ok (some t))).mapboxToken = t ∧
    (MapboxServer.mountTokenEffect (Except.ok (some t))).tokenError = false ∧
    MapboxServer.renderContent (MapboxServer.mountTokenEffect (Except.ok (some t))) =
      MapboxServer.Content.mapContainer ∧
    (MapboxServer.mountTokenEffect (Except.ok none)).mapboxToken = "" ∧
    (MapboxServer.mountTokenEffect (Except.ok none)).tokenError = true ∧
    (MapboxServer.mountTokenEffect (Except.ok (some ""))).mapboxToken = "" ∧
    (MapboxServer.mountTokenEffect (Except.ok (some ""))).tokenError = true := by
  refine ⟨?_, ?_, ?_, by decide, by decide, by decide, by decide⟩ <;>
    simp [MapboxServer.mountTokenEffect, MapboxServer.fetchMapboxToken,
      MapboxServer.initialTokenState, MapboxServer.renderContent, ht]

/-- Witness for the amended C6 at a concrete non-empty token. -/
theorem token_success_sets_token_iff_truthy_witness :
    (MapboxServer.mountTokenEffect (Except.ok (some "pk.abc"))).mapboxToken = "pk.abc" :=
  (token_success_sets_token_iff_truthy "pk.abc" (by decide)).1

/-- C9: the icon and color mappings are total over arbitrary strings:
any tag outside the documented enumerations falls back to the generic
siren emoji, the gray hex color in the Leaflet variant and the muted
classes in the Mapbox variants, and an out-of-enumeration alert still
produces a marker (with the fallback emoji in its element markup). -/
theorem icon_color_fallback_total (t s : String)
    (ht1 : t ≠ "MEDICAL") (ht2 : t ≠ "POLICE") (ht3 : t ≠ "FIRE")
    (hs1 : s ≠ "PENDING") (hs2 : s ≠ "ASSIGNED") (hs3 : s ≠ "RESOLVED") :
    getTypeIcon t = "🚨" ∧
    Leaflet.getStatusColor s = "#6b7280" ∧
    Mapbox.getStatusColor s = "border-muted bg-muted/20" ∧
    (Mapbox.makeMarker
        { id := "x", sosId := "y", type := t,
          latitude := 0, longitude := 0, status := s }).innerHTML =
      "<span class=\"text-lg\">🚨</span>" ∧
    (Leaflet.renderMarkers
        [{ id := "x", sosId := "y", type := t,
           latitude := 0, longitude := 0, status := s }]).length = 1 := by
  refine ⟨?_, ?_, ?_, ?_, ?_⟩
  · simp [getTypeIcon, ht1, ht2, ht3]
  · simp [Leaflet.getStatusColor, hs1, hs2, hs3]
  · simp [Mapbox.getStatusColor, hs1, hs2, hs3]
  · simp [Mapbox.makeMarker, getTypeIcon, ht1, ht2, ht3]
  · simp [Leaflet.renderMarkers]

/-- Witness for C9 at concrete out-of-enumeration tags. -/
theorem icon_color_fallback_total_witness :
    getTypeIcon "EARTHQUAKE" = "🚨" :=
  (icon_color_fallback_total "EARTHQUAKE" "UNKNOWN"
    (by decide) (by decide) (by decide) (by decide) (by decide) (by decide)).1

/-- C10: in the client-entered-token variant the map container is
rendered exactly when the token string is non-empty, the submit handler
leaves the component state unchanged (no validation), and the input
change handler writes the entered value into the token state while
leaving the loaded flag untouched. -/
theorem client_token_gate_frame (st : MapboxClient.ClientState) (v : String) :
    MapboxClient.handleTokenSubmit st = st ∧
    (MapboxClient.renderContent st = MapboxClient.ClientContent.mapContainer ↔
      st.mapboxToken ≠ "") ∧
    (MapboxClient.setTokenFromInput v st).mapboxToken = v ∧
    (MapboxClient.setTokenFromInput v st).isMapLoaded = st.isMapLoaded := by
  refine ⟨?_, ?_, rfl, rfl⟩
  · unfold MapboxClient.handleTokenSubmit
    split <;> rfl
  · by_cases h : st.mapboxToken = "" <;> simp [MapboxClient.renderContent, h]

/-- Witness for C10: with a non-empty token the map container is
rendered, via the iff of the theorem. -/
theorem client_token_gate_frame_witness :
    MapboxClient.renderContent { mapboxToken := "pk", isMapLoaded := false } =
      MapboxClient.ClientContent.mapContainer :=
  (client_token_gate_frame { mapboxToken := "pk", isMapLoaded := false } "v").2.1.mpr
    (by decide)

/-- C1: with the map present and loaded, the marker-sync routine leaves
exactly one marker per alert, in order: the marker list has the length
of the alert list, its i-th entry is the marker built from the i-th
alert, each marker is positioned at the longitude and latitude of its
alert, and its popup markup contains the type tag and the SOS
identifier; the Leaflet alerts.map rendering satisfies the same
properties with latitude-longitude positions. -/
theorem marker_per_alert (alerts : List Alert) (st : Mapbox.MapState)
    (hm : st.map.isSome = true) (hl : st.isMapLoaded = true) :
    (Mapbox.markerSync alerts st).markers.length = alerts.length ∧
    (∀ i : ℕ, (Mapbox.markerSync alerts st).markers[i]? =
      (alerts[i]?).map Mapbox.makeMarker) ∧
    (∀ a : Alert, (Mapbox.makeMarker a).lng = a.longitude ∧
      (Mapbox.makeMarker a).lat = a.latitude ∧
      strIn a.type (Mapbox.makeMarker a).popupHtml ∧
      strIn a.sosId (Mapbox.makeMarker a).popupHtml) ∧
    (Leaflet.renderMarkers alerts).length = alerts.length ∧
    (∀ i : ℕ, (Leaflet.renderMarkers alerts)[i]? =
      (alerts[i]?).map Leaflet.renderMarker) ∧
    (∀ a : Alert,
      (Leaflet.renderMarker a).position = (a.latitude, a.longitude) ∧
      strIn a.type (Leaflet.renderMarker a).popup ∧
      strIn a.sosId (Leaflet.renderMarker a).popup) := by
  obtain ⟨m, hm'⟩ := Option.isSome_iff_exists.mp hm
  have hL := (Mapbox.markerSync_lists alerts st m hm' hl).1
  refine ⟨?_, ?_, ?_, ?_, ?_, ?_⟩
  · rw [hL]
    simp
  · intro i
    rw [hL]
    simp
  · intro a
    exact ⟨rfl, rfl, Mapbox.strIn_type_popup a, Mapbox.strIn_sosId_popup a⟩
  · simp [Leaflet.renderMarkers]
  · intro i
    simp [Leaflet.renderMarkers]
  · intro a
    exact ⟨rfl, Leaflet.strIn_type_leafletPopup a, Leaflet.strIn_sosId_leafletPopup a⟩

/-- Witness for C1 at one concrete alert in a loaded state. -/
theorem marker_per_alert_witness :
    (Mapbox.markerSync [sampleAlert] Mapbox.sampleLoadedState).markers.length =
      [sampleAlert].length :=
  (marker_per_alert [sampleAlert] Mapbox.sampleLoadedState rfl rfl).1

/-- C3: with the map present and loaded and the display in sync with
the markers ref, the marker-sync routine empties both the ref and the
display before adding (first two conjuncts and the definitional order
of the routine), and afterwards the ref and the display hold exactly
the markers of the current alert list; moreover every event of the
component preserves the display-equals-ref invariant, so no marker of
an earlier render ever survives a sync. -/
theorem marker_resync_replaces (alerts : List Alert) (st : Mapbox.MapState)
    (e : Mapbox.Event)
    (hm : st.map.isSome = true) (hl : st.isMapLoaded = true)
    (hinv : st.attached = st.markers) :
    (Mapbox.clearMarkers st).markers = [] ∧
    (Mapbox.clearMarkers st).attached = [] ∧
    Mapbox.markerSync alerts st =
      Mapbox.fitToAlerts alerts (Mapbox.addMarkers alerts (Mapbox.clearMarkers st)) ∧
    (Mapbox.markerSync alerts st).markers = alerts.map Mapbox.makeMarker ∧
    (Mapbox.markerSync alerts st).attached = alerts.map Mapbox.makeMarker ∧
    (Mapbox.step st e).attached = (Mapbox.step st e).markers := by
  obtain ⟨m, hm'⟩ := Option.isSome_iff_exists.mp hm
  have hclear : Mapbox.removeMarkers st.attached st.markers = [] := by
    rw [hinv]
    exact Mapbox.removeMarkers_self st.markers
  obtain ⟨hms, hat⟩ := Mapbox.markerSync_lists alerts st m hm' hl
  refine ⟨rfl, hclear, Mapbox.markerSync_of_loaded alerts st m hm' hl, hms, ?_, ?_⟩
  · rw [hat, hclear]
    simp
  · cases e with
    | init =>
        show (Mapbox.mapInitEffect st).attached = (Mapbox.mapInitEffect st).markers
        unfold Mapbox.mapInitEffect
        split
        · exact hinv
        · exact hinv
    | load =>
        show (Mapbox.loadEvent st).attached = (Mapbox.loadEvent st).markers
        by_cases hset : m.loadHandlerSet = true
        · simpa [Mapbox.loadEvent, hm', hset] using hinv
        · simpa [Mapbox.loadEvent, hm', hset] using hinv
    | sync alerts2 =>
        obtain ⟨hms2, hat2⟩ := Mapbox.markerSync_lists alerts2 st m hm' hl
        show (Mapbox.markerSync alerts2 st).attached = (Mapbox.markerSync alerts2 st).markers
        rw [hms2, hat2, hclear]
        simp
    | cleanup =>
        show (Mapbox.cleanupEffect st).attached = (Mapbox.cleanupEffect st).markers
        show Mapbox.removeMarkers st.attached st.markers = []
        exact hclear

/-- Witness for C3: syncing a one-alert list over a state holding a
stale marker leaves exactly the marker of the current alert. -/
theorem marker_resync_replaces_witness :
    (Mapbox.markerSync [sampleAlert2] Mapbox.sampleMarkerState).markers =
      [sampleAlert2].map Mapbox.makeMarker :=
  (marker_resync_replaces [sampleAlert2] Mapbox.sampleMarkerState
    Mapbox.Event.cleanup rfl rfl rfl).2.2.2.1

/-- C8: the unmount cleanup removes every attached marker from the
display (via the per-marker remove calls), empties the markers ref,
removes the map instance and resets the loaded flag, so no markers or
map instance remain. -/
theorem unmount_cleanup_releases (st : Mapbox.MapState)
    (hinv : st.attached = st.markers) :
    (Mapbox.cleanupEffect st).attached = [] ∧
    (Mapbox.cleanupEffect st).markers = [] ∧
    (Mapbox.cleanupEffect st).map = none ∧
    (Mapbox.cleanupEffect st).isMapLoaded = false := by
  refine ⟨?_, rfl, rfl, rfl⟩
  show Mapbox.removeMarkers st.attached st.markers = []
  rw [hinv]
  exact Mapbox.removeMarkers_self st.markers

/-- Witness for C8 on a state holding one rendered marker. -/
theorem unmount_cleanup_releases_witness :
    (Mapbox.cleanupEffect Mapbox.sampleMarkerState).attached = [] :=
  (unmount_cleanup_releases Mapbox.sampleMarkerState rfl).1

/-- C7: the map-init effect changes the map ref only when the container
is attached and the token is non-empty; when it runs it constructs the
map with the default Delhi center and zoom 10 and an attached
navigation control, leaving the loaded flag untouched; and over all
component events the loaded flag can switch to true only through the
load event, which requires an existing map instance. -/
theorem map_init_and_load_order (st : Mapbox.MapState) (e : Mapbox.Event) :
    ((Mapbox.mapInitEffect st).map ≠ st.map →
      st.mapboxToken ≠ "" ∧ st.hasContainer = true) ∧
    (st.hasContainer = true → st.mapboxToken ≠ "" →
      (Mapbox.mapInitEffect st).map = some Mapbox.initialMap ∧
      (Mapbox.mapInitEffect st).isMapLoaded = st.isMapLoaded) ∧
    Mapbox.initialMap.viewport = Mapbox.Viewport.centerZoom 77.2090 28.6139 10 ∧
    Mapbox.initialMap.navControl = true ∧
    ((Mapbox.step st e).isMapLoaded = true →
      st.isMapLoaded = true ∨ (e = Mapbox.Event.load ∧ st.map.isSome = true)) := by
  refine ⟨?_, ?_, rfl, rfl, ?_⟩
  · intro hne
    unfold Mapbox.mapInitEffect at hne
    split at hne
    · exact absurd rfl hne
    · next hguard =>
        push_neg at hguard
        obtain ⟨h1, h2⟩ := hguard
        exact ⟨h2, by simpa using h1⟩
  · intro h1 h2
    unfold Mapbox.mapInitEffect
    rw [if_neg (by simp [h1, h2])]
    exact ⟨rfl, rfl⟩
  · cases e with
    | init =>
        show (Mapbox.mapInitEffect st).isMapLoaded = true → _
        unfold Mapbox.mapInitEffect
        split
        · exact fun h => Or.inl h
        · exact fun h => Or.inl h
    | load =>
        show (Mapbox.loadEvent st).isMapLoaded = true → _
        unfold Mapbox.loadEvent
        cases hmm : st.map with
        | none => exact fun h => Or.inl h
        | some m =>
            split
            · intro _
              exact Or.inr ⟨rfl, rfl⟩
            · exact fun h => Or.inl h
    | sync alerts =>
        intro h
        rw [show (Mapbox.step st (Mapbox.Event.sync alerts)) = Mapbox.markerSync alerts st from rfl,
          Mapbox.markerSync_isMapLoaded] at h
        exact Or.inl h
    | cleanup =>
        intro h
        exact absurd h (by simp [Mapbox.step, Mapbox.cleanupEffect])

/-- Witness for C7: initializing from a ready state constructs the map,
and firing the load callback on an initialized, not-yet-loaded state is
covered by the load disjunct of the theorem. -/
theorem map_init_and_load_order_witness :
    ((Mapbox.mapInitEffect Mapbox.sampleInitState).map = some Mapbox.initialMap ∧
      (Mapbox.mapInitEffect Mapbox.sampleInitState).isMapLoaded =
        Mapbox.sampleInitState.isMapLoaded) ∧
    (Mapbox.sampleReadyState.isMapLoaded = true ∨
      (Mapbox.Event.load = Mapbox.Event.load ∧
        Mapbox.sampleReadyState.map.isSome = true)) :=
  ⟨(map_init_and_load_order Mapbox.sampleInitState Mapbox.Event.load).2.1 rfl (by decide),
   (map_init_and_load_order Mapbox.sampleReadyState Mapbox.Event.load).2.2.2.2 rfl⟩

/-- C2 counterexample: in the Mapbox variants a sync on an empty alert
list leaves the viewport untouched: from a loaded state whose map was
moved away from the default view, the map after the sync still holds
the moved viewport, which differs from the default Delhi view, so the
empty list does not reset the view there. -/
theorem empty_list_no_reset_counterexample :
    (Mapbox.markerSync [] Mapbox.movedState).map = some Mapbox.movedMap ∧
    Mapbox.movedMap.viewport ≠ Mapbox.Viewport.centerZoom 77.2090 28.6139 10 := by
  constructor
  · rfl
  · norm_num [Mapbox.movedMap]

/-- C2 (amended): in the Leaflet variant an empty alert list resets the
view to the Delhi default center and zoom; in the Mapbox variants an
empty list leaves the map view unchanged; and in both, a non-empty
alert list recomputes a bounding box that contains the coordinates of
every alert and pans and zooms the map to fit it (padded by ratio 0.1
in Leaflet, with padding 50 in Mapbox). -/
theorem fit_bounds_or_default_view (alerts : List Alert) (cur : Leaflet.LView)
    (st : Mapbox.MapState) (m : Mapbox.Map)
    (hm : st.map = some m) (hl : st.isMapLoaded = true) (hne : alerts ≠ []) :
    Leaflet.fitBoundsEffect [] cur = Leaflet.LView.setView 28.6139 77.2090 10 ∧
    (Mapbox.markerSync [] st).map = st.map ∧
    (∃ x1 y1 x2 y2, Mapbox.alertBounds alerts = some (x1, y1, x2, y2) ∧
      (Mapbox.markerSync alerts st).map =
        some { m with viewport := Mapbox.Viewport.fitted x1 y1 x2 y2 50 } ∧
      ∀ a ∈ alerts, x1 ≤ a.longitude ∧ a.longitude ≤ x2 ∧
        y1 ≤ a.latitude ∧ a.latitude ≤ y2) ∧
    (∃ x1 y1 x2 y2, Leaflet.alertLatLngBounds alerts = some (x1, y1, x2, y2) ∧
      Leaflet.fitBoundsEffect alerts cur =
        Leaflet.LView.fitBoundsView (padBounds (x1, y1, x2, y2) 0.1) ∧
      ∀ a ∈ alerts, x1 ≤ a.latitude ∧ a.latitude ≤ x2 ∧
        y1 ≤ a.longitude ∧ a.longitude ≤ y2) := by
  have hmap2 : ∀ al : List Alert,
      (Mapbox.addMarkers al (Mapbox.clearMarkers st)).map = some m := by
    intro al
    rw [Mapbox.addMarkers_eq]
    exact hm
  refine ⟨rfl, ?_, ?_, ?_⟩
  · rw [Mapbox.markerSync_of_loaded [] st m hm hl]
    unfold Mapbox.fitToAlerts
    rw [if_neg (by simp)]
    rw [hmap2 [], hm]
  · have hbs : (Mapbox.alertBounds alerts).isSome = true := by
      apply boundsOf_isSome
      simpa using hne
    obtain ⟨b, hb⟩ := Option.isSome_iff_exists.mp hbs
    obtain ⟨x1, y1, x2, y2⟩ := b
    refine ⟨x1, y1, x2, y2, hb, ?_, ?_⟩
    · rw [Mapbox.markerSync_of_loaded alerts st m hm hl]
      unfold Mapbox.fitToAlerts
      rw [if_pos (List.length_pos.mpr hne)]
      simp only [hmap2 alerts, hb]
    · intro a ha
      have hpt := boundsOf_bounds _ x1 y1 x2 y2 hb (a.longitude, a.latitude)
        (List.mem_map_of_mem _ ha)
      exact hpt
  · have hbs : (Leaflet.alertLatLngBounds alerts).isSome = true := by
      apply boundsOf_isSome
      simpa using hne
    obtain ⟨b, hb⟩ := Option.isSome_iff_exists.mp hbs
    obtain ⟨x1, y1, x2, y2⟩ := b
    refine ⟨x1, y1, x2, y2, hb, ?_, ?_⟩
    · unfold Leaflet.fitBoundsEffect
      rw [if_pos (List.length_pos.mpr hne)]
      simp only [hb]
    · intro a ha
      have hpt := boundsOf_bounds _ x1 y1 x2 y2 hb (a.latitude, a.longitude)
        (List.mem_map_of_mem _ ha)
      exact hpt

/-- Witness for the amended C2: the Leaflet reset on the empty list at
a concrete previous view, obtained from the theorem at a one-alert
list. -/
theorem fit_bounds_or_default_view_witness :
    Leaflet.fitBoundsEffect [] (Leaflet.LView.setView 0 0 1) =
      Leaflet.LView.setView 28.6139 77.2090 10 :=
  (fit_bounds_or_default_view [sampleAlert] (Leaflet.LView.setView 0 0 1)
    Mapbox.sampleLoadedState Mapbox.initialMap rfl rfl
    (List.cons_ne_nil _ _)).1

end RapidResponse
